import Mathlib

/-!
Verification development for a minimal retrieval-augmented-generation (RAG)
question-answering pipeline built in a tutorial notebook
(`02.1_Bedrock_KB_Langchain_with_op.ipynb`).

The notebook itself contains the concrete pieces embedded below:
the helper `get_contexts`, the literal `PROMPT_TEMPLATE` together with the
`claude_prompt.format(context=contexts, question=query)` call (note that the
notebook passes the Python *list* `contexts` directly, so the substituted
context is the Python display of a list of strings), and an
`AmazonKnowledgeBasesRetriever` constructed with a fixed
`numberOfResults = 4`, later wrapped in a `RetrievalQA` chain `qa`.

The design-level pipeline (Retrieval Client, Prompt Assembler, Generation
Client, Pipeline Orchestrator) and its error taxonomy are implemented by the
external orchestration library and managed services, not by repository code;
those parts are modelled from the specification and are marked as such in
their doc comments.
-/

/-- A single quote character (`Char.ofNat 39`). -/
def squote : Char := Char.ofNat 39

/-- A double quote character. -/
def dquote : Char := '"'

/-- The single-quote character as a one-character string. -/
def sqs : String := String.singleton squote

/-- A retrieved document, as returned by the retriever: its text
(`page_content`) plus provenance metadata (modelled as string key/value
pairs; numeric score values are carried as their printed form). -/
structure Document where
  page_content : String
  metadata : List (String × String)
deriving DecidableEq, Repr

/-- From the notebook (cell `get_contexts`): iterate over the retrieved
results and collect each result's `page_content` into a fresh list. -/
def get_contexts (docs : List Document) : List String :=
  docs.foldl (fun contexts retrievedResult => contexts ++ [retrievedResult.page_content]) []

/-- Head of the notebook's literal `PROMPT_TEMPLATE`, up to (and excluding)
the `\x7bcontext\x7d` placeholder. -/
def TPL_HEAD : String :=
  "\n    Human: You are a financial advisor AI system, and provides answers to questions by using fact based and statistical information when possible. \n    Use the following pieces of information to provide a concise answer to the question enclosed in <question> tags. \n    If you don" ++ sqs ++ "t know the answer, just say that you don" ++ sqs ++ "t know, don" ++ sqs ++ "t try to make up an answer.\n    <context>\n    "

/-- Middle of the literal `PROMPT_TEMPLATE`, between the two placeholders. -/
def TPL_MID : String := "\n    </context>\n\n    <question>\n    "

/-- Tail of the literal `PROMPT_TEMPLATE`, after the `\x7bquestion\x7d`
placeholder. -/
def TPL_TAIL : String :=
  "\n    </question>\n\n    The response should be specific and use statistics or numbers when possible.\n\n    Assistant:"

/-- The notebook's literal `PROMPT_TEMPLATE` string: it contains exactly one
`\x7bcontext\x7d` and one `\x7bquestion\x7d` insertion point. -/
def PROMPT_TEMPLATE : String := TPL_HEAD ++ "{context}" ++ TPL_MID ++ "{question}" ++ TPL_TAIL

/-- A prompt template object: the template string plus its declared input
variables (as in `PromptTemplate(template=..., input_variables=...)`). -/
structure PromptTemplate where
  template : String
  input_variables : List String
deriving DecidableEq, Repr

/-- The notebook's `claude_prompt` object. -/
def claude_prompt : PromptTemplate := ⟨PROMPT_TEMPLATE, ["context", "question"]⟩

/-- Python `str.format` specialised to `PROMPT_TEMPLATE`: since the template
contains exactly one `\x7bcontext\x7d` and one `\x7bquestion\x7d`, formatting
replaces each placeholder once with the corresponding argument's string
value. -/
def claude_prompt_format (ctx question : String) : String :=
  TPL_HEAD ++ ctx ++ TPL_MID ++ question ++ TPL_TAIL

/-- Concatenation of a list of strings, in order. -/
def joinStrs : List String → String
| [] => ""
| s :: rest => s ++ joinStrs rest

/-- Python `sep.join(xs)` — the strings of `xs` in order, interleaved with
the separator `sep`. -/
def joinSep (sep : String) : List String → String
| [] => ""
| [s] => s
| s :: t :: rest => s ++ sep ++ joinSep sep (t :: rest)

/-- The lowercase hexadecimal digit for `n < 16`. -/
def hexDigitChar (n : Nat) : Char :=
  if n < 10 then Char.ofNat (48 + n) else Char.ofNat (87 + n)

/-- Python `repr`'s `\xHH` escape of a character with code below 256. -/
def pyHexEscape (c : Char) : String :=
  "\\x" ++ String.singleton (hexDigitChar (c.toNat / 16)) ++ String.singleton (hexDigitChar (c.toNat % 16))

/-- One character of Python string `repr`, escaped with respect to the
surrounding quote character `q`: backslash, the quote, newline, carriage
return and tab get their two-character escapes, and every other
non-printable character of the Latin-1 range (the C0 and C1 control
characters, no-break space and soft hyphen — codes below 32, 127–160
and 173) is escaped as `\xHH`, exactly as CPython does on that range.
Printable characters, and characters above the Latin-1 range (which CPython
escapes only according to Unicode printability tables and which do not
occur in the notebook's data), print verbatim. -/
def pyEscapeChar (q : Char) (c : Char) : String :=
  if c = '\\' then "\\\\"
  else if c = q then "\\" ++ String.singleton q
  else if c = '\n' then "\\n"
  else if c = '\r' then "\\r"
  else if c = '\t' then "\\t"
  else if c.toNat < 32 ∨ (127 ≤ c.toNat ∧ c.toNat ≤ 160) ∨ c.toNat = 173 then pyHexEscape c
  else String.singleton c

/-- Python `repr` of a string: single-quoted unless the string contains a
single quote and no double quote, in which case it is double-quoted. -/
def pyStrRepr (s : String) : String :=
  if squote ∈ s.data ∧ ¬ dquote ∈ s.data then
    String.singleton dquote ++ joinStrs (s.data.map (pyEscapeChar dquote)) ++ String.singleton dquote
  else
    sqs ++ joinStrs (s.data.map (pyEscapeChar squote)) ++ sqs

/-- Python `str` of a list of strings, as produced when a list is substituted
into `str.format`: the bracketed, comma-separated sequence of the elements'
`repr`s. -/
def pyListRepr (xs : List String) : String :=
  "[" ++ joinSep ", " (xs.map pyStrRepr) ++ "]"

/-- The notebook's manual prompt assembly
(`claude_prompt.format(context=contexts, question=query)` with
`contexts = get_contexts(docs)`, a Python list). -/
def manual_prompt (docs : List Document) (query : String) : String :=
  claude_prompt_format (pyListRepr (get_contexts docs)) query

/-- Vector search configuration of the retriever. -/
structure VectorSearchConfiguration where
  numberOfResults : Nat
deriving DecidableEq, Repr

/-- The retriever's `retrieval_config` dictionary. -/
structure RetrievalConfigDict where
  vectorSearchConfiguration : VectorSearchConfiguration
deriving DecidableEq, Repr

/-- The retriever object: knowledge base id plus retrieval configuration,
both fixed at construction time. -/
structure AmazonKnowledgeBasesRetriever where
  knowledge_base_id : String
  retrieval_config : RetrievalConfigDict
deriving DecidableEq, Repr

/-- The notebook's knowledge base id. -/
def kb_id : String := "YWNES8HIIH"

/-- The notebook's retriever, constructed with
`numberOfResults = 4` in its vector search configuration. -/
def retriever : AmazonKnowledgeBasesRetriever := ⟨kb_id, ⟨⟨4⟩⟩⟩

/-- Modelled from the spec: the semantic retrieval service (external to the
repository) returns an ordered list of passages for a query, of which at
most `numberOfResults` are returned to the caller (Retrieval Client
contract, result length ≤ requested count). The store itself is the opaque
external collaborator `store`. -/
def get_relevant_documents (r : AmazonKnowledgeBasesRetriever)
    (store : String → List Document) (query : String) : List Document :=
  (store query).take r.retrieval_config.vectorSearchConfiguration.numberOfResults

/-- Modelled from the spec: the `RetrievalQA` "stuff" chain `qa(query)`
(implemented by the orchestration library, not repository code): retrieve
documents with the fixed `retriever`, join their texts with a blank-line
separator into the context slot of `claude_prompt`, invoke the language
model on the rendered prompt, and return the answer text together with the
source documents. -/
def qa (store : String → List Document) (llm : String → String)
    (query : String) : String × List Document :=
  let docs := get_relevant_documents retriever store query
  let ctx := joinSep "\n\n" (docs.map Document.page_content)
  (llm (claude_prompt_format ctx query), docs)

/-- Modelled from the spec: a retrieved passage
`\x7b text, sourceURI, relevanceScore \x7d` (§3); the relevance score is a
similarity measure, modelled as a rational number. -/
structure RetrievedPassage where
  text : String
  sourceURI : String
  relevanceScore : Rat
deriving DecidableEq, Repr

/-- Modelled from the spec: an answer `\x7b text, sourcePassages \x7d`
(§3). -/
structure Answer where
  text : String
  sourcePassages : List RetrievedPassage
deriving DecidableEq, Repr

/-- Modelled from the spec: the error taxonomy of §7. Every pipeline failure
is one of these typed kinds. -/
inductive PipelineError
| InvalidQuery
| InvalidPrompt
| InvalidConfiguration
| TemplateError
| RetrievalUnavailable
| GenerationUnavailable
| QuotaExceeded
deriving DecidableEq, Repr

/-- Modelled from the spec: one outcome of the external knowledge store on
one call — either the store is unreachable or it produces a ranked passage
list. A list of these outcomes models the store's behaviour on successive
calls; a client that never retries consumes only the first element. -/
inductive RetrievalResponse
| unreachable
| results (ps : List RetrievedPassage)
deriving DecidableEq, Repr

/-- Modelled from the spec: one outcome of the external text-generation
service on one call — transport failure, rate limiting, or generated
text. -/
inductive GenerationResponse
| serviceFailure
| rateLimited
| generated (text : String)
deriving DecidableEq, Repr

/-- Modelled from the spec: the Retrieval Client `retrieve(query, k)`
(§4.1, absent from the repository code, which delegates it to the managed
service). Caller-input errors are reported immediately: `InvalidQuery` if
`query` is empty or `k < 1`. Otherwise exactly one call is issued to the
external store (the head of `responses`); an unreachable store yields
`RetrievalUnavailable`, and a result list is truncated to at most `k`
passages. Later elements of `responses` are never consulted: no retry. -/
def retrieveClient (responses : List RetrievalResponse) (query : String)
    (k : Nat) : Except PipelineError (List RetrievedPassage) :=
  if query = "" ∨ k < 1 then .error .InvalidQuery
  else
    match responses with
    | [] => .error .RetrievalUnavailable
    | .unreachable :: _ => .error .RetrievalUnavailable
    | .results ps :: _ => .ok (ps.take k)

/-- Modelled from the spec: the Generation Client `generate(prompt)` (§4.3,
absent from the repository code). `InvalidPrompt` for an empty prompt;
otherwise exactly one call to the external service (the head of
`responses`): transport failure maps to `GenerationUnavailable`, rate
limiting to `QuotaExceeded`. No retry, no fallback. -/
def generateClient (responses : List GenerationResponse) (prompt : String) :
    Except PipelineError String :=
  if prompt = "" then .error .InvalidPrompt
  else
    match responses with
    | [] => .error .GenerationUnavailable
    | .serviceFailure :: _ => .error .GenerationUnavailable
    | .rateLimited :: _ => .error .QuotaExceeded
    | .generated t :: _ => .ok t

/-- Modelled from the spec: one part of a prompt template — a literal text
segment or one of the two named insertion points (§3, "a fixed string with
two named insertion points"). -/
inductive TemplatePart
| lit (s : String)
| contextSlot
| questionSlot
deriving DecidableEq, Repr

/-- Substitution of one template part: literals pass through; the insertion
points receive the context and question values. -/
def substPart (question ctx : String) : TemplatePart → String
| .lit s => s
| .contextSlot => ctx
| .questionSlot => question

/-- Modelled from the spec: the Prompt Assembler
`render(template, question, passages-context)` (§4.2, absent from the
repository code). Fails with `TemplateError` if either insertion point is
missing from the template; otherwise substitutes the question and context
values at their insertion points and concatenates. -/
def render (tpl : List TemplatePart) (question ctx : String) :
    Except PipelineError String :=
  if TemplatePart.contextSlot ∈ tpl ∧ TemplatePart.questionSlot ∈ tpl then
    .ok (joinStrs (tpl.map (substPart question ctx)))
  else .error .TemplateError

/-- Modelled from the spec: the context value handed to the template — the
passage texts joined in the caller's order by a blank-line separator
(§4.2 concatenation policy). -/
def concatContexts (texts : List String) : String :=
  joinSep "\n\n" texts

/-- Modelled from the spec: the three pipeline stages of the orchestrator's
linear state machine (§4.4). -/
inductive Stage
| retrieving
| assembling
| generating
deriving DecidableEq, Repr

/-- Modelled from the spec: the Pipeline Orchestrator `answer(question, k)`
(§4.4, absent from the repository code), instrumented with the list of
stages actually entered. Stages run strictly in sequence; the first failure
aborts the pipeline with that failure's kind and no later stage is
entered. -/
def answerT (tpl : List TemplatePart) (rResponses : List RetrievalResponse)
    (gResponses : List GenerationResponse) (question : String) (k : Nat) :
    Except PipelineError Answer × List Stage :=
  match retrieveClient rResponses question k with
  | .error e => (.error e, [Stage.retrieving])
  | .ok passages =>
    match render tpl question (concatContexts (passages.map RetrievedPassage.text)) with
    | .error e => (.error e, [Stage.retrieving, Stage.assembling])
    | .ok prompt =>
      match generateClient gResponses prompt with
      | .error e => (.error e, [Stage.retrieving, Stage.assembling, Stage.generating])
      | .ok text => (.ok ⟨text, passages⟩, [Stage.retrieving, Stage.assembling, Stage.generating])

/-- Modelled from the spec: `answer(question, k)` — the orchestrator's
result, either a typed failure or an `Answer`. -/
def answer (tpl : List TemplatePart) (rResponses : List RetrievalResponse)
    (gResponses : List GenerationResponse) (question : String) (k : Nat) :
    Except PipelineError Answer :=
  (answerT tpl rResponses gResponses question k).1

/-- An opening brace character (`Char.ofNat 123`). -/
def lbrace : Char := Char.ofNat 123

/-- A character that Python `repr` reproduces verbatim inside single quotes:
not a quote or backslash, and none of the non-printable Latin-1 codes that
`repr` escapes (below 32, 127–160, 173). -/
def pyPlainChar (c : Char) : Prop :=
  c ≠ squote ∧ c ≠ dquote ∧ c ≠ '\\' ∧ 32 ≤ c.toNat ∧ (c.toNat < 127 ∨ 160 < c.toNat) ∧ c.toNat ≠ 173

instance (c : Char) : Decidable (pyPlainChar c) := by
  unfold pyPlainChar
  infer_instance

/-- A string is simple when every character is reproduced verbatim by Python
`repr`, so its `repr` is just the string wrapped in single quotes. -/
def simpleText (s : String) : Prop :=
  ∀ c ∈ s.data, pyPlainChar c

instance (s : String) : Decidable (simpleText s) := by
  unfold simpleText
  infer_instance

/-- A template part mentions no opening brace (literals only; insertion
points trivially qualify). -/
def braceFreePart : TemplatePart → Prop
| .lit s => lbrace ∉ s.data
| .contextSlot => True
| .questionSlot => True

instance (p : TemplatePart) : Decidable (braceFreePart p) := by
  cases p <;> simp only [braceFreePart] <;> infer_instance

/-- The pattern string occurs as a contiguous substring of `s`. -/
def occursIn (pat s : String) : Prop :=
  ∃ a b : List Char, s.data = a ++ pat.data ++ b

/-- A template part is a literal segment. -/
def isLit : TemplatePart → Prop
| .lit _ => True
| .contextSlot => False
| .questionSlot => False

instance (p : TemplatePart) : Decidable (isLit p) := by
  cases p <;> simp only [isLit] <;> infer_instance

theorem get_contexts_foldl (docs : List Document) (acc : List String) :
    docs.foldl (fun contexts retrievedResult => contexts ++ [retrievedResult.page_content]) acc
      = acc ++ docs.map Document.page_content := by
  induction docs generalizing acc with
  | nil => simp
  | cons d ds ih => simp [List.foldl_cons, ih]

theorem get_contexts_eq_map (docs : List Document) :
    get_contexts docs = docs.map Document.page_content := by
  simpa using get_contexts_foldl docs []

theorem pyEscapeChar_eq_singleton (c : Char) (h : pyPlainChar c) :
    pyEscapeChar squote c = String.singleton c := by
  obtain ⟨h1, -, h3, h4, h5, h6⟩ := h
  have hn : c ≠ '\n' := fun he => absurd (he ▸ h4) (by decide)
  have hr : c ≠ '\r' := fun he => absurd (he ▸ h4) (by decide)
  have ht : c ≠ '\t' := fun he => absurd (he ▸ h4) (by decide)
  have hctrl : ¬ (c.toNat < 32 ∨ (127 ≤ c.toNat ∧ c.toNat ≤ 160) ∨ c.toNat = 173) := by
    rcases h5 with h5 | h5 <;> omega
  simp [pyEscapeChar, h1, h3, hn, hr, ht, hctrl]

theorem joinStrs_singletons (l : List Char) :
    joinStrs (l.map String.singleton) = String.mk l := by
  induction l with
  | nil => rfl
  | cons c cs ih =>
    simp only [List.map_cons, joinStrs, ih]
    rfl

theorem pyStrRepr_simple (s : String) (h : simpleText s) :
    pyStrRepr s = sqs ++ s ++ sqs := by
  unfold pyStrRepr
  rw [if_neg (fun hcond => absurd rfl (h squote hcond.1).1)]
  have hmap : s.data.map (pyEscapeChar squote) = s.data.map String.singleton :=
    List.map_congr_left (fun c hc => pyEscapeChar_eq_singleton c (h c hc))
  rw [hmap, joinStrs_singletons]

theorem joinSep_quoted (texts : List String) (hne : texts ≠ []) :
    joinSep ", " (texts.map (fun t => sqs ++ t ++ sqs))
      = sqs ++ joinSep (sqs ++ ", " ++ sqs) texts ++ sqs := by
  induction texts with
  | nil => exact absurd rfl hne
  | cons t rest ih =>
    cases rest with
    | nil => simp [joinSep]
    | cons u rest2 =>
      simp only [List.map_cons, joinSep] at ih ⊢
      rw [ih (by simp)]
      simp only [String.append_assoc]

theorem joinStrs_append (a b : List String) :
    joinStrs (a ++ b) = joinStrs a ++ joinStrs b := by
  induction a with
  | nil => simp [joinStrs]
  | cons s rest ih =>
    simp only [List.cons_append, List.append_eq, joinStrs, ih, String.append_assoc]

theorem mem_data_joinStrs (c : Char) (l : List String)
    (h : c ∈ (joinStrs l).data) : ∃ s ∈ l, c ∈ s.data := by
  induction l with
  | nil => simp [joinStrs] at h
  | cons s rest ih =>
    simp only [joinStrs, String.data_append, List.mem_append] at h
    rcases h with h | h
    · exact ⟨s, by simp, h⟩
    · obtain ⟨t, ht, hc⟩ := ih h
      exact ⟨t, by simp [ht], hc⟩

theorem retrieveClient_ok_length (resp : List RetrievalResponse)
    (query : String) (k : Nat) (ps : List RetrievedPassage)
    (h : retrieveClient resp query k = Except.ok ps) : ps.length ≤ k := by
  unfold retrieveClient at h
  split at h
  · exact absurd h (by simp)
  · match resp, h with
    | .results ps0 :: _, h =>
      have : ps0.take k = ps := by simpa using h
      subst this
      simp [List.length_take]

/-- Four demonstration documents whose texts are supplied in a deliberately
non-alphabetical order. -/
def demoDocs : List Document :=
  [⟨"B", []⟩, ⟨"D", []⟩, ⟨"A", []⟩, ⟨"C", []⟩]

/-- Claim C9: `get_contexts(docs)` returns a list of exactly the same length
whose i-th element is the `page_content` of the i-th document — one text per
document, in the caller's order (the input list is read, never modified, as
the function is pure). -/
theorem get_contexts_extracts_in_order :
    ∀ (docs : List Document) (i : Nat),
      (get_contexts docs).length = docs.length ∧
      (get_contexts docs)[i]? = (docs[i]?).map Document.page_content := by
  intro docs i
  rw [get_contexts_eq_map]
  exact ⟨List.length_map .., List.getElem?_map ..⟩

/-- Claim C4: the manual prompt assembly is a pure, deterministic function —
two invocations on identical `(docs, query)` inputs yield identical output
strings (there is no state or external call in the definition). -/
theorem manual_prompt_deterministic :
    ∀ (docs1 docs2 : List Document) (q1 q2 : String),
      docs1 = docs2 → q1 = q2 → manual_prompt docs1 q1 = manual_prompt docs2 q2 := by
  intro d1 d2 q1 q2 h1 h2
  rw [h1, h2]

/-- Witness for C4 at a concrete input. -/
theorem manual_prompt_deterministic_witness :
    demoDocs = demoDocs ∧ ("Q" : String) = "Q" ∧
    manual_prompt demoDocs "Q" = manual_prompt demoDocs "Q" :=
  ⟨rfl, rfl, manual_prompt_deterministic demoDocs demoDocs "Q" "Q" rfl rfl⟩

/-- Claim C10: the retrieval result count is fixed at retriever construction
(`numberOfResults = 4`); every retrieval through this retriever — in
particular inside every `qa(query)` invocation — yields at most 4 documents,
and `qa`'s source documents are always the store's first 4 results: the
caller supplies only `query` and cannot vary the count per invocation. -/
theorem retriever_count_fixed_at_construction :
    retriever.retrieval_config.vectorSearchConfiguration.numberOfResults = 4 ∧
    ∀ (store : String → List Document) (llm : String → String) (query : String),
      (get_relevant_documents retriever store query).length ≤ 4 ∧
      (qa store llm query).2 = (store query).take 4 ∧
      (qa store llm query).2.length ≤ 4 := by
  refine ⟨rfl, fun store llm query => ⟨?_, rfl, ?_⟩⟩
  · simp [get_relevant_documents, retriever, List.length_take]
  · simp [qa, get_relevant_documents, retriever, List.length_take]

set_option maxRecDepth 4096 in
/-- Counterexample to claim C8 as stated: with zero retrieved passages the
notebook's manual assembly substitutes the Python display of the empty list,
`[]`, into the context section — not an empty context section. -/
theorem manual_prompt_empty_docs_counterexample :
    manual_prompt [] "q" ≠ claude_prompt_format "" "q" ∧
    manual_prompt [] "q" = claude_prompt_format "[]" "q" := by
  constructor
  · decide
  · rfl

/-- Claim C8 (amended): given zero retrieved passages the manual prompt
assembly still succeeds, substituting the two-character empty-list display
`[]` (rather than an empty string) for the context section. -/
theorem manual_prompt_empty_docs_amended :
    ∀ q : String, manual_prompt [] q = claude_prompt_format "[]" q := by
  intro q
  show claude_prompt_format (pyListRepr (get_contexts [])) q = claude_prompt_format "[]" q
  have h : pyListRepr (get_contexts []) = "[]" := by decide
  rw [h]

/-- A single retrieved document whose text contains a newline. -/
def badDocs : List Document := [⟨"a\nb", []⟩]

/-- A demonstration retrieved passage. -/
def demoPassage : RetrievedPassage := ⟨"P1", "s3://doc1", 82/100⟩

/-- A demonstration template with both insertion points, each exactly
once. -/
def tplBoth : List TemplatePart :=
  [TemplatePart.lit "A", TemplatePart.contextSlot, TemplatePart.lit "B",
   TemplatePart.questionSlot, TemplatePart.lit "C"]

/-- Claim C5: the Retrieval Client fails with `InvalidQuery` exactly when the
query is empty or `k < 1`; under the precondition (non-empty query, `k ≥ 1`)
the `InvalidQuery` branch is never taken, whatever the external store
does. -/
theorem retrieveClient_invalid_query (resp : List RetrievalResponse)
    (query : String) (k : Nat) :
    ((query = "" ∨ k < 1) →
      retrieveClient resp query k = Except.error PipelineError.InvalidQuery) ∧
    (query ≠ "" → 1 ≤ k →
      retrieveClient resp query k ≠ Except.error PipelineError.InvalidQuery) := by
  constructor
  · intro h
    unfold retrieveClient
    rw [if_pos h]
  · intro hq hk
    unfold retrieveClient
    rw [if_neg (by push_neg; exact ⟨hq, by omega⟩)]
    rcases resp with _ | ⟨r, rest⟩
    · simp
    · rcases r <;> simp

/-- Witness for C5: the error branch at an invalid input, and its absence at
a valid one. -/
theorem retrieveClient_invalid_query_witness :
    (("" : String) = "" ∨ (0 : Nat) < 1) ∧
    retrieveClient [] "" 0 = Except.error PipelineError.InvalidQuery ∧
    ("x" : String) ≠ "" ∧ (1 : Nat) ≤ 1 ∧
    retrieveClient [] "x" 1 ≠ Except.error PipelineError.InvalidQuery :=
  ⟨Or.inl rfl, (retrieveClient_invalid_query [] "" 0).1 (Or.inl rfl),
   by decide, by decide,
   (retrieveClient_invalid_query [] "x" 1).2 (by decide) (by decide)⟩

/-- Claim C1: for every well-formed question and `k ≥ 1`, the pipeline
`answer(question, k)` either returns an `Answer` whose `sourcePassages`
sequence has length at most `k`, or a typed failure from the
`PipelineError` taxonomy — the result type admits nothing else. -/
theorem answer_typed_result (tpl : List TemplatePart)
    (rResp : List RetrievalResponse) (gResp : List GenerationResponse)
    (question : String) (k : Nat) (hq : question ≠ "") (hk : 1 ≤ k) :
    (∃ a : Answer, answer tpl rResp gResp question k = Except.ok a ∧
      a.sourcePassages.length ≤ k) ∨
    (∃ e : PipelineError, answer tpl rResp gResp question k = Except.error e) := by
  cases hr : retrieveClient rResp question k with
  | error e =>
    right
    exact ⟨e, by simp only [answer, answerT, hr]⟩
  | ok ps =>
    cases hrd : render tpl question (concatContexts (ps.map RetrievedPassage.text)) with
    | error e =>
      right
      exact ⟨e, by simp only [answer, answerT, hr, hrd]⟩
    | ok prompt =>
      cases hg : generateClient gResp prompt with
      | error e =>
        right
        exact ⟨e, by simp only [answer, answerT, hr, hrd, hg]⟩
      | ok t =>
        left
        exact ⟨⟨t, ps⟩, by simp only [answer, answerT, hr, hrd, hg],
          retrieveClient_ok_length rResp question k ps hr⟩

/-- Witness for C1 at a concrete successful pipeline run. -/
theorem answer_typed_result_witness :
    ("Q" : String) ≠ "" ∧ (1 : Nat) ≤ 1 ∧
    ((∃ a : Answer,
        answer tplBoth [RetrievalResponse.results [demoPassage]]
          [GenerationResponse.generated "ans"] "Q" 1 = Except.ok a ∧
        a.sourcePassages.length ≤ 1) ∨
     (∃ e : PipelineError,
        answer tplBoth [RetrievalResponse.results [demoPassage]]
          [GenerationResponse.generated "ans"] "Q" 1 = Except.error e)) :=
  ⟨by decide, by decide,
   answer_typed_result tplBoth [RetrievalResponse.results [demoPassage]]
     [GenerationResponse.generated "ans"] "Q" 1 (by decide) (by decide)⟩

/-- Claim C6: external-service errors are propagated to the caller verbatim;
neither client retries, backs off, or falls back — the pipeline outcome is
fixed by the first (only) response of each external service, whatever
responses would have been available to a retry (`rRest`, `gRest`). -/
theorem answer_propagates_service_errors (tpl : List TemplatePart)
    (question : String) (k : Nat) (rRest : List RetrievalResponse) :
    (∀ gResp : List GenerationResponse, question ≠ "" → 1 ≤ k →
      answer tpl (RetrievalResponse.unreachable :: rRest) gResp question k
        = Except.error PipelineError.RetrievalUnavailable) ∧
    (∀ (ps : List RetrievedPassage) (prompt : String)
        (gRest : List GenerationResponse), question ≠ "" → 1 ≤ k →
      render tpl question (concatContexts ((ps.take k).map RetrievedPassage.text))
        = Except.ok prompt →
      prompt ≠ "" →
      answer tpl (RetrievalResponse.results ps :: rRest)
          (GenerationResponse.serviceFailure :: gRest) question k
        = Except.error PipelineError.GenerationUnavailable ∧
      answer tpl (RetrievalResponse.results ps :: rRest)
          (GenerationResponse.rateLimited :: gRest) question k
        = Except.error PipelineError.QuotaExceeded) := by
  have hvalid : ∀ (question : String) (k : Nat), question ≠ "" → 1 ≤ k →
      ¬ (question = "" ∨ k < 1) := by
    intro q k hq hk
    push_neg
    exact ⟨hq, by omega⟩
  constructor
  · intro gResp hq hk
    have hr : retrieveClient (RetrievalResponse.unreachable :: rRest) question k
        = Except.error PipelineError.RetrievalUnavailable := by
      unfold retrieveClient
      rw [if_neg (hvalid question k hq hk)]
    simp only [answer, answerT, hr]
  · intro ps prompt gRest hq hk hrd hp
    have hr : retrieveClient (RetrievalResponse.results ps :: rRest) question k
        = Except.ok (ps.take k) := by
      unfold retrieveClient
      rw [if_neg (hvalid question k hq hk)]
    constructor
    · have hg : generateClient (GenerationResponse.serviceFailure :: gRest) prompt
          = Except.error PipelineError.GenerationUnavailable := by
        unfold generateClient
        rw [if_neg hp]
      simp only [answer, answerT, hr, hrd, hg]
    · have hg : generateClient (GenerationResponse.rateLimited :: gRest) prompt
          = Except.error PipelineError.QuotaExceeded := by
        unfold generateClient
        rw [if_neg hp]
      simp only [answer, answerT, hr, hrd, hg]

/-- Witness for C6: a first-response outage and a first-response rate limit,
each with a non-trivial unused response tail that a retry would have
consumed. -/
theorem answer_propagates_service_errors_witness :
    ("Q" : String) ≠ "" ∧ (1 : Nat) ≤ 1 ∧
    (render tplBoth "Q" (concatContexts (([demoPassage].take 1).map RetrievedPassage.text))
      = Except.ok ("A" ++ concatContexts [demoPassage.text] ++ "B" ++ "Q" ++ "C")) ∧
    answer tplBoth (RetrievalResponse.unreachable :: [RetrievalResponse.results [demoPassage]])
        [GenerationResponse.generated "ans"] "Q" 1
      = Except.error PipelineError.RetrievalUnavailable ∧
    answer tplBoth (RetrievalResponse.results [demoPassage] :: [])
        (GenerationResponse.rateLimited :: [GenerationResponse.generated "ans"]) "Q" 1
      = Except.error PipelineError.QuotaExceeded :=
  ⟨by decide, by decide, by rfl,
   (answer_propagates_service_errors tplBoth "Q" 1 [RetrievalResponse.results [demoPassage]]).1
     [GenerationResponse.generated "ans"] (by decide) (by decide),
   ((answer_propagates_service_errors tplBoth "Q" 1 []).2 [demoPassage]
     ("A" ++ concatContexts [demoPassage.text] ++ "B" ++ "Q" ++ "C")
     [GenerationResponse.generated "ans"] (by decide) (by decide) (by rfl) (by decide)).2⟩

theorem lbrace_not_in_subst_out (tpl : List TemplatePart) (question ctx : String)
    (hbf : ∀ p ∈ tpl, braceFreePart p)
    (hq : lbrace ∉ question.data) (hc : lbrace ∉ ctx.data) :
    lbrace ∉ (joinStrs (tpl.map (substPart question ctx))).data := by
  intro hmem
  obtain ⟨s, hs, hcs⟩ := mem_data_joinStrs lbrace _ hmem
  obtain ⟨p, hp, rfl⟩ := List.mem_map.1 hs
  cases p with
  | lit s0 => exact (hbf _ hp) hcs
  | contextSlot => exact hc hcs
  | questionSlot => exact hq hcs

theorem not_occursIn_of_missing_char (pat out : String) (c : Char)
    (hc : c ∈ pat.data) (hno : c ∉ out.data) : ¬ occursIn pat out := by
  rintro ⟨a, b, hd⟩
  apply hno
  rw [hd]
  simp only [List.mem_append]
  exact Or.inl (Or.inr hc)

/-- Claim C3: rendering fails with `TemplateError` exactly when the template
misses the context or the question insertion point; for a well-formed
template (both points present, literals around them) each value is
substituted exactly once at its insertion point, and no unresolved
placeholder text remains in the output. -/
theorem render_template_contract (question ctx : String) :
    (∀ tpl : List TemplatePart,
      (TemplatePart.contextSlot ∉ tpl ∨ TemplatePart.questionSlot ∉ tpl) ↔
        render tpl question ctx = Except.error PipelineError.TemplateError) ∧
    (∀ tA tB tC : List TemplatePart,
      (∀ p ∈ tA, isLit p) → (∀ p ∈ tB, isLit p) → (∀ p ∈ tC, isLit p) →
      render (tA ++ TemplatePart.contextSlot :: tB ++ TemplatePart.questionSlot :: tC)
          question ctx
        = Except.ok (joinStrs (tA.map (substPart question ctx)) ++ ctx
            ++ joinStrs (tB.map (substPart question ctx)) ++ question
            ++ joinStrs (tC.map (substPart question ctx)))) ∧
    (∀ tpl : List TemplatePart,
      TemplatePart.contextSlot ∈ tpl → TemplatePart.questionSlot ∈ tpl →
      (∀ p ∈ tpl, braceFreePart p) →
      lbrace ∉ question.data → lbrace ∉ ctx.data →
      ∃ out, render tpl question ctx = Except.ok out ∧
        ¬ occursIn "{context}" out ∧ ¬ occursIn "{question}" out) := by
  refine ⟨fun tpl => ⟨?_, ?_⟩, ?_, ?_⟩
  · intro h
    unfold render
    rw [if_neg (by tauto)]
  · intro h
    by_contra hn
    push_neg at hn
    obtain ⟨h1, h2⟩ := hn
    unfold render at h
    rw [if_pos ⟨h1, h2⟩] at h
    exact Except.noConfusion h
  · intro tA tB tC hA hB hC
    unfold render
    rw [if_pos ⟨by simp, by simp⟩]
    simp only [List.map_append, List.map_cons, joinStrs_append, joinStrs, substPart,
      String.append_assoc]
  · intro tpl h1 h2 hbf hq hc
    refine ⟨joinStrs (tpl.map (substPart question ctx)), ?_, ?_, ?_⟩
    · unfold render
      rw [if_pos ⟨h1, h2⟩]
    · exact not_occursIn_of_missing_char _ _ lbrace (by decide)
        (lbrace_not_in_subst_out tpl question ctx hbf hq hc)
    · exact not_occursIn_of_missing_char _ _ lbrace (by decide)
        (lbrace_not_in_subst_out tpl question ctx hbf hq hc)

/-- Witness for C3: a one-point template is rejected; a two-point template
renders with both values substituted once and no placeholder left. -/
theorem render_template_contract_witness :
    (render [TemplatePart.lit "X", TemplatePart.questionSlot] "Q" "CTX"
      = Except.error PipelineError.TemplateError) ∧
    ((∀ p ∈ ([TemplatePart.lit "A"] : List TemplatePart), isLit p) ∧
      render ([TemplatePart.lit "A"] ++ TemplatePart.contextSlot :: [TemplatePart.lit "B"]
          ++ TemplatePart.questionSlot :: [TemplatePart.lit "C"]) "Q" "CTX"
        = Except.ok (joinStrs ([TemplatePart.lit "A"].map (substPart "Q" "CTX")) ++ "CTX"
            ++ joinStrs ([TemplatePart.lit "B"].map (substPart "Q" "CTX")) ++ "Q"
            ++ joinStrs ([TemplatePart.lit "C"].map (substPart "Q" "CTX")))) ∧
    (∃ out, render tplBoth "Q" "CTX" = Except.ok out ∧
      ¬ occursIn "{context}" out ∧ ¬ occursIn "{question}" out) :=
  ⟨((render_template_contract "Q" "CTX").1
      [TemplatePart.lit "X", TemplatePart.questionSlot]).mp (Or.inl (by decide)),
   ⟨by decide,
    (render_template_contract "Q" "CTX").2.1 [TemplatePart.lit "A"] [TemplatePart.lit "B"]
      [TemplatePart.lit "C"] (by decide) (by decide) (by decide)⟩,
   (render_template_contract "Q" "CTX").2.2 tplBoth (by decide) (by decide) (by decide)
     (by decide) (by decide)⟩

/-- Claim C7: the pipeline stages of one `answer(question, k)` invocation run
in strict sequence — the stage trace is always a prefix of
retrieving, assembling, generating — and the first failing stage terminates
the pipeline with its own error kind, with no subsequent stage entered
(in particular a rate-limited generation terminates in `QuotaExceeded`
after all three stages have been entered and none repeated). -/
theorem answerT_stages_sequential (tpl : List TemplatePart) (question : String)
    (k : Nat) :
    (∀ (rResp : List RetrievalResponse) (gResp : List GenerationResponse),
      (answerT tpl rResp gResp question k).2 = [Stage.retrieving] ∨
      (answerT tpl rResp gResp question k).2 = [Stage.retrieving, Stage.assembling] ∨
      (answerT tpl rResp gResp question k).2
        = [Stage.retrieving, Stage.assembling, Stage.generating]) ∧
    (∀ (rResp : List RetrievalResponse) (gResp : List GenerationResponse)
        (e : PipelineError),
      retrieveClient rResp question k = Except.error e →
      answerT tpl rResp gResp question k = (Except.error e, [Stage.retrieving])) ∧
    (∀ (rResp : List RetrievalResponse) (gResp : List GenerationResponse)
        (ps : List RetrievedPassage) (e : PipelineError),
      retrieveClient rResp question k = Except.ok ps →
      render tpl question (concatContexts (ps.map RetrievedPassage.text))
        = Except.error e →
      answerT tpl rResp gResp question k
        = (Except.error e, [Stage.retrieving, Stage.assembling])) ∧
    (∀ (rResp : List RetrievalResponse) (ps : List RetrievedPassage)
        (prompt : String) (gRest : List GenerationResponse),
      retrieveClient rResp question k = Except.ok ps →
      render tpl question (concatContexts (ps.map RetrievedPassage.text))
        = Except.ok prompt →
      prompt ≠ "" →
      answerT tpl rResp (GenerationResponse.rateLimited :: gRest) question k
        = (Except.error PipelineError.QuotaExceeded,
           [Stage.retrieving, Stage.assembling, Stage.generating])) := by
  refine ⟨?_, ?_, ?_, ?_⟩
  · intro rResp gResp
    cases hr : retrieveClient rResp question k with
    | error e => left; simp only [answerT, hr]
    | ok ps =>
      cases hrd : render tpl question (concatContexts (ps.map RetrievedPassage.text)) with
      | error e => right; left; simp only [answerT, hr, hrd]
      | ok prompt =>
        cases hg : generateClient gResp prompt with
        | error e => right; right; simp only [answerT, hr, hrd, hg]
        | ok t => right; right; simp only [answerT, hr, hrd, hg]
  · intro rResp gResp e hr
    simp only [answerT, hr]
  · intro rResp gResp ps e hr hrd
    simp only [answerT, hr, hrd]
  · intro rResp ps prompt gRest hr hrd hp
    have hg : generateClient (GenerationResponse.rateLimited :: gRest) prompt
        = Except.error PipelineError.QuotaExceeded := by
      unfold generateClient
      rw [if_neg hp]
    simp only [answerT, hr, hrd, hg]

/-- Witness for C7: a failing retrieval stops after the first stage; a
rate-limited generation terminates the full three-stage run in
`QuotaExceeded`. -/
theorem answerT_stages_sequential_witness :
    retrieveClient [] "Q" 1 = Except.error PipelineError.RetrievalUnavailable ∧
    answerT tplBoth [] [GenerationResponse.generated "ans"] "Q" 1
      = (Except.error PipelineError.RetrievalUnavailable, [Stage.retrieving]) ∧
    answerT tplBoth [RetrievalResponse.results [demoPassage]]
        (GenerationResponse.rateLimited :: [GenerationResponse.generated "ans"]) "Q" 1
      = (Except.error PipelineError.QuotaExceeded,
         [Stage.retrieving, Stage.assembling, Stage.generating]) :=
  ⟨by rfl,
   (answerT_stages_sequential tplBoth "Q" 1).2.1 [] [GenerationResponse.generated "ans"]
     PipelineError.RetrievalUnavailable (by rfl),
   (answerT_stages_sequential tplBoth "Q" 1).2.2.2 [RetrievalResponse.results [demoPassage]]
     [demoPassage] ("A" ++ concatContexts [demoPassage.text] ++ "B" ++ "Q" ++ "C")
     [GenerationResponse.generated "ans"] (by rfl) (by rfl) (by decide)⟩
